import Mathlib

/-!
Verification of the ema_monitor repository: a shallow embedding of the
CBP501 / EMA monitoring scripts (classifier, extractor, run-state tracker,
webhook notifier, orchestrator) and proofs about their behaviour.

Python strings are modelled as Lean strings; substring containment,
lower-casing and stripping are defined structurally over the character
list so that all definitions evaluate inside the kernel.  External
libraries (requests, BeautifulSoup, urllib.parse, re, the OS clock and
the Python hash) are abstracted as function parameters or as explicit
outcome values; everything else is translated directly from the source.
-/

namespace EmaMonitor

/-- Structural substring test on character lists: true when the needle
occurs contiguously in the haystack (Python `needle in hay`). -/
def charsContains (needle : List Char) : List Char → Bool
  | [] => needle.isEmpty
  | c :: t => needle.isPrefixOf (c :: t) || charsContains needle t

/-- Python `needle in hay` for strings. -/
def strContains (hay needle : String) : Bool :=
  charsContains needle.data hay.data

/-- Python `str.lower()` (ASCII case folding, as used by the source on
its ASCII keywords; CJK characters have no case). -/
def lowerStr (s : String) : String :=
  ⟨s.data.map Char.toLower⟩

/-- Drop leading whitespace characters. -/
def dropLeadingWs : List Char → List Char
  | [] => []
  | c :: t => if c.isWhitespace then dropLeadingWs t else c :: t

/-- Python `str.strip()`: remove whitespace from both ends. -/
def pyStrip (s : String) : String :=
  ⟨(dropLeadingWs (dropLeadingWs s.data.reverse).reverse)⟩

/-- Digit-sequence parser used to model Python `int(...)`. -/
def parseDigits (ds : List Char) : Option Nat :=
  match ds with
  | [] => none
  | _ => if ds.all Char.isDigit then
           some (ds.foldl (fun a c => a * 10 + (c.toNat - 48)) 0)
         else none

/-- Python `int(s)` on an already stripped string: optional sign followed
by decimal digits, `none` when the call would raise `ValueError`. -/
def parseIntStr (s : String) : Option Int :=
  match s.data with
  | [] => none
  | c :: rest =>
    if c = '-' then (parseDigits rest).map (fun n => -(n : Int))
    else if c = '+' then (parseDigits rest).map (fun n => (n : Int))
    else (parseDigits (c :: rest)).map (fun n => (n : Int))

/-! ### Content classifier (src/cbp501_scraper.py) -/

/-- Spelling variants of the target keyword
(`cbp501_patterns` in `_contains_cbp501`). -/
def cbp501_patterns : List String :=
  ["cbp501", "cbp-501", "cbp 501", "cbp501", "cb-p501", "cb p501"]

/-- Model of `CBP501Scraper._contains_cbp501`: false on empty text, else
any registered variant contained in the lower-cased text. -/
def contains_cbp501 (text : String) : Bool :=
  if text = "" then false
  else cbp501_patterns.any (fun p => strContains (lowerStr text) p)

/-- Phase-3 indicator keywords (`phase3_keywords` in `_filter_phase3_items`).
The entry "III相" is kept verbatim from the source even though it can
never match a lower-cased text. -/
def phase3_keywords : List String :=
  ["phase 3", "phase iii", "phase three",
   "phase-3", "phase-iii", "phaseiii",
   "p3", "piii",
   "3相", "三相", "III相",
   "pivotal", "registration", "confirmatory"]

/-- Trial-start indicator keywords (`trial_start_keywords` in
`_filter_phase3_items`). -/
def trial_start_keywords : List String :=
  ["start", "initiat", "begin", "launch", "commence",
   "開始", "スタート", "着手", "実施",
   "first patient", "enrollment", "recruit"]

/-- Local `has_phase3` of `_filter_phase3_items`. -/
def has_phase3_keywords (text : String) : Bool :=
  phase3_keywords.any (fun k => strContains (lowerStr text) k)

/-- Local `has_trial_start` of `_filter_phase3_items`. -/
def has_trial_start_keywords (text : String) : Bool :=
  trial_start_keywords.any (fun k => strContains (lowerStr text) k)

/-- Candidate item produced by `_find_cbp501_content`
(the dict with keys type/title/url/source/content). -/
structure ContentItem where
  itemType : String
  title : String
  url : String
  source : String
  content : String
deriving Repr, DecidableEq

/-- Item enriched by `_filter_phase3_items` with the matched keyword
lists and the confidence label. -/
structure ClassifiedItem extends ContentItem where
  phase3_keywords : List String
  start_keywords : List String
  confidence : String
deriving Repr, DecidableEq

/-- Model of `CBP501Scraper._filter_phase3_items`: keep an item when a
phase-3 keyword or a trial-start keyword occurs in its lower-cased
content, record the matching keywords, and label the confidence. -/
def filter_phase3_items (items : List ContentItem) : List ClassifiedItem :=
  items.filterMap (fun item =>
    let hp := has_phase3_keywords item.content
    let hs := has_trial_start_keywords item.content
    if hp || hs then
      some { toContentItem := item
             phase3_keywords :=
               phase3_keywords.filter (fun k => strContains (lowerStr item.content) k)
             start_keywords :=
               trial_start_keywords.filter (fun k => strContains (lowerStr item.content) k)
             confidence := if hp && hs then "high" else "medium" }
    else none)

/-- Result view of classification: the match decision of
`_contains_cbp501` bundled with the keyword sets computed by
`_filter_phase3_items` for the same text. -/
structure ClassifyResult where
  isMatch : Bool
  phase3_matched : List String
  start_matched : List String
deriving Repr, DecidableEq

/-- Classification of one text, assembled from the source functions
`_contains_cbp501` (match decision) and the keyword filters of
`_filter_phase3_items`. -/
def classify (text : String) : ClassifyResult :=
  { isMatch := contains_cbp501 text
    phase3_matched := phase3_keywords.filter (fun k => strContains (lowerStr text) k)
    start_matched := trial_start_keywords.filter (fun k => strContains (lowerStr text) k) }

/-! ### Extractor (src/cbp501_scraper.py `_find_cbp501_content` and
src/scraper.py `_extract_news_items` approach 1 with `_parse_link_item`)

BeautifulSoup is abstracted: a parsed page is a `Document` holding the
anchors (with their stripped text, href and, for the news extractor, the
combined text of the enclosing parent element) and the candidate text
elements (p/div/span/li, with the href of a related anchor when one
exists).  `urljoin`, the Python string hash and the date-regex search
are abstracted as function parameters. -/

/-- An anchor element: stripped link text, href attribute, and the
combined stripped text of its parent element (none when the anchor has
no parent). -/
structure Anchor where
  text : String
  href : String
  parent : Option String
deriving Repr, DecidableEq

/-- A candidate text element (p/div/span/li): its stripped text and the
href of a related anchor, when one exists. -/
structure TextElement where
  text : String
  relatedHref : Option String
deriving Repr, DecidableEq

/-- A parsed page, as far as the extractors inspect it. -/
structure Document where
  anchors : List Anchor
  textElements : List TextElement
deriving Repr, DecidableEq

/-- First `n` characters of a string (Python slice `s[:n]`). -/
def takeChars (s : String) (n : Nat) : String :=
  ⟨s.data.take n⟩

/-- Model of `CBP501Scraper._find_cbp501_content`: collect every anchor
whose text mentions the target keyword, then every text element that
mentions it with more than 20 characters.  `join` abstracts
`urljoin(base_url, href)`.  Note that no URL-based deduplication is
performed. -/
def find_cbp501_content (join : String → String) (source_url : String)
    (doc : Document) : List ContentItem :=
  let link_items := doc.anchors.filterMap (fun a =>
    if contains_cbp501 a.text = true then
      some { itemType := "link", title := a.text, url := join a.href
             source := source_url, content := a.text }
    else none)
  let text_items := doc.textElements.filterMap (fun e =>
    if contains_cbp501 e.text = true ∧ 20 < e.text.length then
      some { itemType := "text"
             title := if 100 < e.text.length then takeChars e.text 100 ++ "..." else e.text
             url := match e.relatedHref with
                    | some h => join h
                    | none => ""
             source := source_url, content := e.text }
    else none)
  link_items ++ text_items

/-- News item produced by `EMAScraper._parse_link_item`.  The Python
synthetic id string `f"link_{idx}_{hash(title + full_url)}"` is kept as
its three components (strategy tag, enumeration index, hash value). -/
structure NewsItem where
  idTag : String
  idx : Nat
  idHash : Int
  title : String
  link : String
  date : String
  description : String
  is_approval_related : Bool
deriving Repr, DecidableEq

/-- Approval keyword list of `_parse_link_item`. -/
def approval_keywords_link : List String :=
  ["recommended for approval", "positive opinion", "marketing authorisation",
   "new medicine", "chmp", "committee for medicinal products",
   "approved", "authorisation", "recommendation", "conditional marketing",
   "orphan medicine", "biosimilar", "generic medicine"]

/-- Model of `EMAScraper._parse_link_item`: drop anchors whose visible
text is empty or shorter than 10 characters, build the full URL with
`join` (urljoin), derive the description from the parent text when it is
longer than the title, find a date in the parent text with `dateFind`
(the regex search), and flag approval-related content by keyword
containment.  `hashFn` abstracts the Python string hash. -/
def parse_link_item (join : String → String) (hashFn : String → Int)
    (dateFind : String → String) (a : Anchor) (idx : Nat) : Option NewsItem :=
  let title := a.text
  if title = "" ∨ title.length < 10 then none
  else
    let full_url := join a.href
    let description :=
      match a.parent with
      | none => ""
      | some ptext =>
        if title.length < ptext.length then takeChars ptext 200 ++ "..." else ""
    let date :=
      match a.parent with
      | none => ""
      | some ptext => dateFind ptext
    let content_text := lowerStr (title ++ " " ++ description)
    some { idTag := "link", idx := idx, idHash := hashFn (title ++ full_url)
           title := title, link := full_url, date := date
           description := description
           is_approval_related :=
             approval_keywords_link.any (fun k => strContains content_text k) }

/-- Model of approach 1 of `EMAScraper._extract_news_items`: walk the
anchors of the view-content container, skipping empty hrefs, hrefs
already in `processed` and hrefs outside the news path pattern; every
surviving href is added to `processed` (whether or not
`_parse_link_item` yields an item), so one href is emitted at most
once. -/
def extract_approach1 (join : String → String) (hashFn : String → Int)
    (dateFind : String → String) :
    List Anchor → Nat → List String → List NewsItem
  | [], _, _ => []
  | a :: rest, idx, processed =>
    if a.href = "" ∨ a.href ∈ processed then
      extract_approach1 join hashFn dateFind rest (idx + 1) processed
    else if strContains a.href "/news/" || strContains a.href "/en/news/" then
      match parse_link_item join hashFn dateFind a idx with
      | some item => item :: extract_approach1 join hashFn dateFind rest (idx + 1) (a.href :: processed)
      | none => extract_approach1 join hashFn dateFind rest (idx + 1) (a.href :: processed)
    else
      extract_approach1 join hashFn dateFind rest (idx + 1) processed

/-! ### Run-state tracker (src/main.py) -/

/-- Observable condition of a persisted state file: absent, readable
with some content, or failing with an IO error when read. -/
inductive FileState where
  | missing
  | readable (content : String)
  | unreadable
deriving Repr, DecidableEq

/-- Model of `load_last_found_status`: the stripped file content, or the
default "未発見" (not found) when the file is missing; an IO error is
caught, logged as a warning and degraded to the default.  The returned
Bool records whether a warning was logged. -/
def load_last_found_status : FileState → String × Bool
  | FileState.missing => ("未発見", false)
  | FileState.readable c => (pyStrip c, false)
  | FileState.unreadable => ("未発見", true)

/-- Model of `save_cbp501_status`: the file afterwards holds the status
verbatim. -/
def save_cbp501_status (status : String) : FileState :=
  FileState.readable status

/-- Model of `load_execution_counter`: parse the stripped content as an
integer; a missing file yields 0 silently, and both an IO error and a
`ValueError` from `int(...)` are caught, logged as a warning and
degraded to 0.  The returned Bool records whether a warning was
logged. -/
def load_execution_counter : FileState → Int × Bool
  | FileState.missing => (0, false)
  | FileState.readable c =>
    match parseIntStr (pyStrip c) with
    | some n => (n, false)
    | none => (0, true)
  | FileState.unreadable => (0, true)

/-- Model of `save_execution_counter`: the file afterwards holds the
decimal rendering of the counter. -/
def save_execution_counter (counter : Int) : FileState :=
  FileState.readable (toString counter)

/-! ### Webhook sender (src/cbp501_notifier.py and src/notifier.py,
`_send_webhook`; the two copies are identical) -/

/-- Outcome of one POST to the webhook, prescribed by the environment:
an HTTP status code, or a network-level `RequestException`. -/
inductive WebhookResponse where
  | status (code : Nat)
  | netError
deriving Repr, DecidableEq

/-- Observable event of the send loop: one POST attempt, or one sleep of
the given number of time units. -/
inductive SendEvent where
  | attempt
  | wait (units : Nat)
deriving Repr, DecidableEq

/-- Loop body of `_send_webhook`.  `remaining` counts the loop
iterations left, `attempt` is the Python loop index (used for the
backoff exponent and the last-attempt test); `env i` is the outcome of
the POST made on loop index `i`.  Returns the boolean result together
with the trace of attempts and sleeps. -/
def send_webhook_aux (env : Nat → WebhookResponse) (maxRetries : Nat) :
    Nat → Nat → Bool × List SendEvent
  | 0, _ => (false, [])
  | remaining + 1, attempt =>
    match env attempt with
    | WebhookResponse.status code =>
      if code = 204 then (true, [SendEvent.attempt])
      else if code = 429 then
        let rest := send_webhook_aux env maxRetries remaining (attempt + 1)
        (rest.1, SendEvent.attempt :: SendEvent.wait 5 :: rest.2)
      else (false, [SendEvent.attempt])
    | WebhookResponse.netError =>
      if attempt < maxRetries - 1 then
        let rest := send_webhook_aux env maxRetries remaining (attempt + 1)
        (rest.1, SendEvent.attempt :: SendEvent.wait (2 ^ attempt) :: rest.2)
      else (false, [SendEvent.attempt])

/-- Model of `_send_webhook`: up to `maxRetries` attempts starting at
loop index 0 (the call sites always use the default `max_retries = 3`). -/
def send_webhook (env : Nat → WebhookResponse) (maxRetries : Nat) :
    Bool × List SendEvent :=
  send_webhook_aux env maxRetries maxRetries 0

/-! ### Notifier methods (src/cbp501_notifier.py `CBP501Notifier`,
src/notifier.py `DiscordNotifier`)

Each public method builds a message inside `try` and submits it with
`_send_webhook`; any exception raised while building is caught and the
method returns False.  Building is modelled as an `Except` value whose
error cases are exactly the expressions of the source that can raise on
the inputs the method accepts; the payload is reduced to its `content`
broadcast marker, the only part a claim mentions. -/

/-- Webhook payload, reduced to the optional broadcast `content` line. -/
structure Payload where
  content : Option String
deriving Repr, DecidableEq

/-- One step of Python `max(xs, key=f)` with a Bool-valued key: the
running best is replaced only when the candidate key is strictly
greater (true over false); ties keep the earlier element. -/
def pyMaxAux (key : α → Bool) (best : α) : List α → α
  | [] => best
  | y :: ys =>
    if key y && !key best then pyMaxAux key y ys
    else pyMaxAux key best ys

/-- Python `max(xs, key=f)` with a Bool-valued key; `none` models the
`ValueError` raised on an empty sequence. -/
def pyMax (key : α → Bool) : List α → Option α
  | [] => none
  | x :: xs => some (pyMaxAux key x xs)

/-- The selection in `send_cbp501_found_notification`:
`max(cbp501_details, key=lambda x: x.get("confidence", "low") == "high")`. -/
def best_item (details : List ClassifiedItem) : Option ClassifiedItem :=
  pyMax (fun c => c.confidence == "high") details

/-- Embed construction of `send_cbp501_found_notification`: raises
(`ValueError` from `max`) when the details list is empty, else builds
the payload with the `@everyone` broadcast line. -/
def build_found_payload (details : List ClassifiedItem) : Except String Payload :=
  match best_item details with
  | none => Except.error "max() arg is an empty sequence"
  | some _ => Except.ok { content := some "@everyone 🚨 **CBP501三相治験情報発見！** 🚨" }

/-- Model of `CBP501Notifier.send_cbp501_found_notification`. -/
def send_cbp501_found_notification (env : Nat → WebhookResponse)
    (details : List ClassifiedItem) : Bool :=
  match build_found_payload details with
  | Except.error _ => false
  | Except.ok _ => (send_webhook env 3).1

/-- Embed construction of `send_status_report`: when `found` is true the
code evaluates `len(cbp501_details)`, which raises `TypeError` when the
caller passed `None`; otherwise the build succeeds with no broadcast
line. -/
def build_status_report_payload (found : Bool)
    (details : Option (List ClassifiedItem)) : Except String Payload :=
  if found then
    match details with
    | none => Except.error "object of type NoneType has no len()"
    | some _ => Except.ok { content := none }
  else Except.ok { content := none }

/-- Model of `CBP501Notifier.send_status_report`. -/
def send_status_report (env : Nat → WebhookResponse) (found : Bool)
    (details : Option (List ClassifiedItem)) (_execution_count : Int) : Bool :=
  match build_status_report_payload found details with
  | Except.error _ => false
  | Except.ok _ => (send_webhook env 3).1

/-- Model of `CBP501Notifier.send_cbp501_status_change`: the build never
raises and carries no broadcast line. -/
def send_cbp501_status_change (env : Nat → WebhookResponse)
    (_now_found : Bool) (_execution_count : Int) : Bool :=
  (send_webhook env 3).1

/-- Model of `CBP501Notifier.send_error_notification`: the build never
raises and carries the `@here` broadcast line. -/
def send_error_notification (env : Nat → WebhookResponse)
    (_error_message : String) : Bool :=
  (send_webhook env 3).1

/-- Model of `CBP501Notifier.test_connection`: the build never raises. -/
def test_connection (env : Nat → WebhookResponse) : Bool :=
  (send_webhook env 3).1

/-- Clinical-trial keyword list used for the broadcast line of
`DiscordNotifier.send_approval_notification`. -/
def clinical_content_keywords : List String :=
  ["phase", "trial", "study", "clinical", "cbp501"]

/-- Broadcast line chosen by `DiscordNotifier.send_approval_notification`. -/
def approval_payload_content (item : NewsItem) : Option String :=
  if item.is_approval_related then
    if clinical_content_keywords.any (fun k => strContains (lowerStr item.title) k) then
      some "🧪 **治験・臨床試験情報** 🧪"
    else some "🚨 **新薬承認情報** 🚨"
  else none

/-- Embed construction of `DiscordNotifier.send_approval_notification`:
every field it reads exists on a `NewsItem`, so the build never
raises. -/
def build_approval_payload (item : NewsItem) : Except String Payload :=
  Except.ok { content := approval_payload_content item }

/-- Model of `DiscordNotifier.send_approval_notification`. -/
def send_approval_notification (env : Nat → WebhookResponse)
    (item : NewsItem) : Bool :=
  match build_approval_payload item with
  | Except.error _ => false
  | Except.ok _ => (send_webhook env 3).1

/-! ### Orchestrator (src/main.py `main`) -/

/-- Outcome of `scraper.search_cbp501_phase3()` as seen by `main`: a
normal return of the found flag and the details list, or a raised
exception anywhere in the scraping block. -/
inductive ScrapeOutcome where
  | ok (found : Bool) (details : List ClassifiedItem)
  | raised
deriving Repr, DecidableEq

/-- A notification attempted by `main`, by kind and arguments. -/
inductive Notification where
  | discovery (details : List ClassifiedItem)
  | statusReport (found : Bool) (execution_count : Int)
  | statusChange (now_found : Bool) (execution_count : Int)
  | errorNote (execution_count : Int)
deriving Repr, DecidableEq

/-- Observable result of one invocation of `main`: the counter value
written to `execution_counter.txt` (written before the try block), the
status written to `cbp501_status.txt` (none on the error path), the
notifications attempted, and the process exit code. -/
structure MainResult where
  savedCounter : Int
  savedStatus : Option String
  notifications : List Notification
  exitCode : Nat
deriving Repr, DecidableEq

/-- Model of `main` (after successful environment loading): increment
and persist the counter, load the previous status, run the scraper, and
select at most one notification by the if/elif structure of the source;
on a scraper exception send a best-effort error notification and exit
with code 1, the counter already persisted.  `interval` is the
configured `status_report_interval`; the Lean `%` on `Int` agrees with
the Python `%` for the positive intervals the configuration allows. -/
def runMain (counterFile statusFile : FileState) (interval : Int)
    (scrape : ScrapeOutcome) : MainResult :=
  let execution_counter : Int := (load_execution_counter counterFile).1 + 1
  let last_status : String := (load_last_found_status statusFile).1
  match scrape with
  | ScrapeOutcome.raised =>
    { savedCounter := execution_counter, savedStatus := none
      notifications := [Notification.errorNote execution_counter]
      exitCode := 1 }
  | ScrapeOutcome.ok found details =>
    let current_status : String := if found then "発見" else "未発見"
    let notifications : List Notification :=
      if found then
        if current_status ≠ last_status then
          [Notification.discovery details]
        else if execution_counter % interval = 0 then
          [Notification.statusReport true execution_counter]
        else []
      else
        if current_status ≠ last_status then
          [Notification.statusChange false execution_counter]
        else if execution_counter % interval = 0 then
          [Notification.statusReport false execution_counter]
        else []
    { savedCounter := execution_counter
      savedStatus := some current_status
      notifications := notifications
      exitCode := 0 }

/-! ### Concrete fixtures used by witnesses and counterexamples -/

/-- A page holding two anchors with identical target URLs, both
mentioning the target keyword. -/
def docDup : Document :=
  { anchors :=
      [ { text := "CBP501 phase 3 trial", href := "/en/news/cbp501", parent := none },
        { text := "Update on CBP-501", href := "/en/news/cbp501", parent := none } ]
    textElements := [] }

/-- A constant stand-in for the Python string hash. -/
def hash0 : String → Int := fun _ => 0

/-- A date-regex search that never finds a date. -/
def date0 : String → String := fun _ => ""

/-- Anchors for the news extractor: a duplicated href and a distinct
one. -/
def demoAnchors : List Anchor :=
  [ { text := "Medicine X recommended for approval", href := "/en/news/a", parent := none },
    { text := "Medicine X recommended for approval", href := "/en/news/a", parent := none },
    { text := "CHMP meeting highlights update", href := "/en/news/b", parent := none } ]

/-- A candidate item whose content matches one phase-3 keyword and two
trial-start keywords. -/
def itemP3 : ContentItem :=
  { itemType := "link", title := "CBP501 phase 3 trial to start", url := "u"
    source := "s", content := "CBP501 phase 3 trial to start enrollment" }

/-- The classified form of `itemP3`, as produced by
`filter_phase3_items`. -/
def cTest : ClassifiedItem :=
  { toContentItem := itemP3, phase3_keywords := ["phase 3"]
    start_keywords := ["start", "enrollment"], confidence := "high" }

/-- A medium-confidence classified item. -/
def cMed : ClassifiedItem :=
  { itemType := "link", title := "A", url := "u1", source := "s", content := "c1"
    phase3_keywords := ["phase 3"], start_keywords := [], confidence := "medium" }

/-- A high-confidence classified item. -/
def cHigh : ClassifiedItem :=
  { itemType := "link", title := "B", url := "u2", source := "s", content := "c2"
    phase3_keywords := ["phase 3"], start_keywords := ["start"], confidence := "high" }

/-- Environment answering every POST with HTTP 204. -/
def env204 : Nat → WebhookResponse := fun _ => WebhookResponse.status 204

/-- Environment answering HTTP 429 twice, then HTTP 204. -/
def env429twice : Nat → WebhookResponse :=
  fun i => if i = 2 then WebhookResponse.status 204 else WebhookResponse.status 429

/-- Environment answering every POST with HTTP 500. -/
def env500 : Nat → WebhookResponse := fun _ => WebhookResponse.status 500

/-- Environment failing every POST with a network error. -/
def envErr : Nat → WebhookResponse := fun _ => WebhookResponse.netError

/-! ## Theorems -/

/-- Unfolding equation for one iteration of the webhook send loop. -/
theorem send_webhook_aux_succ (env : Nat → WebhookResponse) (maxR r a : Nat) :
    send_webhook_aux env maxR (r + 1) a =
      match env a with
      | WebhookResponse.status code =>
        if code = 204 then (true, [SendEvent.attempt])
        else if code = 429 then
          ((send_webhook_aux env maxR r (a + 1)).1,
            SendEvent.attempt :: SendEvent.wait 5 :: (send_webhook_aux env maxR r (a + 1)).2)
        else (false, [SendEvent.attempt])
      | WebhookResponse.netError =>
        if a < maxR - 1 then
          ((send_webhook_aux env maxR r (a + 1)).1,
            SendEvent.attempt :: SendEvent.wait (2 ^ a) :: (send_webhook_aux env maxR r (a + 1)).2)
        else (false, [SendEvent.attempt]) := rfl

/-- The notifications selected by a normally terminating run, as one
conditional expression. -/
theorem runMain_ok_notifications (cf sf : FileState) (iv : Int) (found : Bool)
    (details : List ClassifiedItem) :
    (runMain cf sf iv (ScrapeOutcome.ok found details)).notifications =
      (if (if found then "発見" else "未発見") ≠ (load_last_found_status sf).1 then
        [if found then Notification.discovery details
         else Notification.statusChange false ((load_execution_counter cf).1 + 1)]
      else if ((load_execution_counter cf).1 + 1) % iv = 0 then
        [Notification.statusReport found ((load_execution_counter cf).1 + 1)]
      else []) := by
  cases found <;> rfl

/-- Claim C1 (corrected), counterexample: on the first-ever run with the
default interval 4 and no keyword hits, the orchestrator sends no
notification at all, so no baseline report equivalent to a
PeriodicReport is produced; the state is still persisted as not found
and the exit code is 0. -/
theorem main_first_run_counterexample :
    runMain FileState.missing FileState.missing 4 (ScrapeOutcome.ok false []) =
      { savedCounter := 1, savedStatus := some "未発見"
        notifications := [], exitCode := 0 }
    ∧ (runMain FileState.missing FileState.missing 4
        (ScrapeOutcome.ok false [])).notifications.length = 0 := by
  decide

/-- Claim C1 (amended): on the first-ever run (counter 0 to 1) with the
default report interval 4 and no keyword hits, no notification is sent
(1 is not a multiple of 4 and the not-found status equals the default),
the state is persisted as not found, and the process exits with code
0. -/
theorem main_first_run_no_baseline (details : List ClassifiedItem) :
    runMain FileState.missing FileState.missing 4 (ScrapeOutcome.ok false details) =
      { savedCounter := 1, savedStatus := some "未発見"
        notifications := [], exitCode := 0 } := by
  have h1 : ¬(("未発見" : String) ≠ "未発見") := fun h => h rfl
  have h2 : ¬((((0 : Int) + 1) % 4) = 0) := by decide
  simp [runMain, load_execution_counter, load_last_found_status, h2]

/-- Claim C2 (confirmed): each invocation attempts at most one
notification, selected by priority discovery over status change over
periodic report over none; a new find beats everything, a found to
not-found transition beats the periodic report, the periodic report
fires only when the status is unchanged and the incremented counter is
divisible by the interval, and otherwise nothing is sent. -/
theorem main_at_most_one_notification (cf sf : FileState) (iv : Int)
    (details : List ClassifiedItem) :
    (∀ found, (runMain cf sf iv (ScrapeOutcome.ok found details)).notifications.length ≤ 1)
    ∧ (runMain cf sf iv ScrapeOutcome.raised).notifications.length ≤ 1
    ∧ ("発見" ≠ (load_last_found_status sf).1 →
        (runMain cf sf iv (ScrapeOutcome.ok true details)).notifications
          = [Notification.discovery details])
    ∧ ("未発見" ≠ (load_last_found_status sf).1 →
        (runMain cf sf iv (ScrapeOutcome.ok false details)).notifications
          = [Notification.statusChange false ((load_execution_counter cf).1 + 1)])
    ∧ ("発見" = (load_last_found_status sf).1 →
        ((load_execution_counter cf).1 + 1) % iv = 0 →
        (runMain cf sf iv (ScrapeOutcome.ok true details)).notifications
          = [Notification.statusReport true ((load_execution_counter cf).1 + 1)])
    ∧ ("未発見" = (load_last_found_status sf).1 →
        ((load_execution_counter cf).1 + 1) % iv = 0 →
        (runMain cf sf iv (ScrapeOutcome.ok false details)).notifications
          = [Notification.statusReport false ((load_execution_counter cf).1 + 1)])
    ∧ ("発見" = (load_last_found_status sf).1 →
        ¬(((load_execution_counter cf).1 + 1) % iv = 0) →
        (runMain cf sf iv (ScrapeOutcome.ok true details)).notifications = [])
    ∧ ("未発見" = (load_last_found_status sf).1 →
        ¬(((load_execution_counter cf).1 + 1) % iv = 0) →
        (runMain cf sf iv (ScrapeOutcome.ok false details)).notifications = []) := by
  refine ⟨?_, ?_, ?_, ?_, ?_, ?_, ?_, ?_⟩
  · intro found
    rw [runMain_ok_notifications]
    by_cases h : (if found then "発見" else "未発見") ≠ (load_last_found_status sf).1
    · rw [if_pos h]; simp
    · rw [if_neg h]
      by_cases h2 : ((load_execution_counter cf).1 + 1) % iv = 0
      · rw [if_pos h2]; simp
      · rw [if_neg h2]; simp
  · simp [runMain]
  · intro h
    rw [runMain_ok_notifications, if_pos (by simpa using h)]
    simp
  · intro h
    rw [runMain_ok_notifications, if_pos (by simpa using h)]
    simp
  · intro h hdue
    rw [runMain_ok_notifications, if_neg (by simpa using h), if_pos hdue]
  · intro h hdue
    rw [runMain_ok_notifications, if_neg (by simpa using h), if_pos hdue]
  · intro h hdue
    rw [runMain_ok_notifications, if_neg (by simpa using h), if_neg hdue]
  · intro h hdue
    rw [runMain_ok_notifications, if_neg (by simpa using h), if_neg hdue]

/-- Claim C2 witness: the priority selection evaluated on concrete
states. -/
theorem main_at_most_one_notification_witness :
    (runMain FileState.missing FileState.missing 4
      (ScrapeOutcome.ok true [])).notifications = [Notification.discovery []]
    ∧ (runMain FileState.missing FileState.missing 4
        (ScrapeOutcome.ok false [])).notifications = []
    ∧ (runMain (FileState.readable "3") (FileState.readable "発見") 4
        (ScrapeOutcome.ok true [])).notifications
        = [Notification.statusReport true 4] :=
  ⟨(main_at_most_one_notification FileState.missing FileState.missing 4 []).2.2.1
      (by decide),
   (main_at_most_one_notification FileState.missing FileState.missing 4
      []).2.2.2.2.2.2.2 (by decide) (by decide),
   (main_at_most_one_notification (FileState.readable "3") (FileState.readable "発見") 4
      []).2.2.2.2.1 (by decide) (by decide)⟩

/-- Claim C3 (confirmed): every item kept by the phase-3 filter has
confidence high exactly when both keyword sets matched its content,
confidence medium exactly when exactly one of them matched, and is kept
only because at least one of them matched; no other confidence value
occurs. -/
theorem filter_phase3_items_confidence (items : List ContentItem)
    (c : ClassifiedItem) (hc : c ∈ filter_phase3_items items) :
    (c.confidence = "high" ↔
      (has_phase3_keywords c.content = true ∧ has_trial_start_keywords c.content = true))
    ∧ (c.confidence = "medium" ↔
      ((has_phase3_keywords c.content = true ∧ has_trial_start_keywords c.content = false)
        ∨ (has_phase3_keywords c.content = false ∧ has_trial_start_keywords c.content = true)))
    ∧ (has_phase3_keywords c.content || has_trial_start_keywords c.content) = true
    ∧ (c.confidence = "high" ∨ c.confidence = "medium") := by
  rcases List.mem_filterMap.mp hc with ⟨a, _, heq⟩
  cases hhp : has_phase3_keywords a.content <;>
    cases hhs : has_trial_start_keywords a.content <;>
      simp only [hhp, hhs, Bool.false_or, Bool.or_false, Bool.or_true, Bool.true_or,
        Bool.false_and, Bool.and_false, Bool.true_and, Bool.and_true,
        if_true, if_false, Bool.or_self, Bool.and_self] at heq
  · exact absurd heq (by simp)
  all_goals
    injection heq with h
    subst h
    simp only [hhp, hhs]
    refine ⟨by simp, by simp, by simp, by simp⟩

/-- Claim C3 witness: the filter applied to one concrete item matching
one phase-3 keyword and two trial-start keywords. -/
theorem filter_phase3_items_confidence_witness :
    (cTest.confidence = "high" ↔
      (has_phase3_keywords cTest.content = true
        ∧ has_trial_start_keywords cTest.content = true))
    ∧ (cTest.confidence = "medium" ↔
      ((has_phase3_keywords cTest.content = true
          ∧ has_trial_start_keywords cTest.content = false)
        ∨ (has_phase3_keywords cTest.content = false
          ∧ has_trial_start_keywords cTest.content = true)))
    ∧ (has_phase3_keywords cTest.content || has_trial_start_keywords cTest.content) = true
    ∧ (cTest.confidence = "high" ∨ cTest.confidence = "medium") :=
  filter_phase3_items_confidence [itemP3] cTest (by decide)

/-- Claim C8 (confirmed): any text whose lower-cased form contains a
registered spelling variant of the target keyword classifies as a
match, and any text containing no variant and no phase-3 or trial-start
keyword classifies as a non-match with both matched-keyword sets
empty. -/
theorem classify_keyword_matching (text : String) :
    ((∃ p ∈ cbp501_patterns, strContains (lowerStr text) p = true) →
      (classify text).isMatch = true)
    ∧ ((∀ p ∈ cbp501_patterns, strContains (lowerStr text) p = false) →
       (∀ k ∈ phase3_keywords, strContains (lowerStr text) k = false) →
       (∀ k ∈ trial_start_keywords, strContains (lowerStr text) k = false) →
       (classify text).isMatch = false
         ∧ (classify text).phase3_matched = []
         ∧ (classify text).start_matched = []) := by
  constructor
  · rintro ⟨p, hp, hcont⟩
    show contains_cbp501 text = true
    unfold contains_cbp501
    by_cases h0 : text = ""
    · subst h0
      fin_cases hp <;> exact absurd hcont (by decide)
    · rw [if_neg h0, List.any_eq_true]
      exact ⟨p, hp, hcont⟩
  · intro h1 h2 h3
    refine ⟨?_, ?_, ?_⟩
    · show contains_cbp501 text = false
      unfold contains_cbp501
      by_cases h0 : text = ""
      · rw [if_pos h0]
      · rw [if_neg h0, List.any_eq_false]
        intro p hp
        simp [h1 p hp]
    · show phase3_keywords.filter _ = []
      rw [List.filter_eq_nil_iff]
      intro k hk
      simp [h2 k hk]
    · show trial_start_keywords.filter _ = []
      rw [List.filter_eq_nil_iff]
      intro k hk
      simp [h3 k hk]

/-- Claim C8 witness: a text containing the hyphenated variant
classifies as a match, and a text containing no keyword at all
classifies as a non-match with empty keyword sets. -/
theorem classify_keyword_matching_witness :
    (classify "Trial update: CBP-501 progresses").isMatch = true
    ∧ ((classify "hello world").isMatch = false
       ∧ (classify "hello world").phase3_matched = []
       ∧ (classify "hello world").start_matched = []) :=
  ⟨(classify_keyword_matching "Trial update: CBP-501 progresses").1
      ⟨"cbp-501", by decide, by decide⟩,
   (classify_keyword_matching "hello world").2 (by decide) (by decide) (by decide)⟩

/-- A running best with a true key is never replaced. -/
theorem pyMaxAux_key_true (key : α → Bool) (best : α) (h : key best = true) :
    ∀ ys, pyMaxAux key best ys = best := by
  intro ys
  induction ys with
  | nil => rfl
  | cons y ys ih => simp [pyMaxAux, h, ih]

/-- A running best with a false key is replaced by the first element
whose key is true, when one exists. -/
theorem pyMaxAux_key_false (key : α → Bool) :
    ∀ (ys : List α) (best : α), key best = false →
      pyMaxAux key best ys = ((ys.find? key).getD best) := by
  intro ys
  induction ys with
  | nil => intro best _; rfl
  | cons y ys ih =>
    intro best h
    cases hk : key y with
    | true => simp [pyMaxAux, hk, h, List.find?, pyMaxAux_key_true key y hk]
    | false => simp [pyMaxAux, hk, h, List.find?, ih best h]

/-- Claim C9 (corrected), counterexample: on a list whose first element
has medium confidence and whose second has high confidence, the
selection of `send_cbp501_found_notification` returns the second
element, not the first, so the comparison is not a no-op. -/
theorem best_item_not_first_counterexample :
    best_item [cMed, cHigh] = some cHigh ∧ cHigh ≠ cMed := by decide

/-- Claim C9 (amended): the item selected for a discovery notification
is the first element of the details list whose confidence is high when
one exists, and the first element of the list otherwise; an empty list
yields no selection (the underlying Python `max` raises). -/
theorem best_item_selection (x : ClassifiedItem) (xs : List ClassifiedItem) :
    best_item (x :: xs)
      = some (((x :: xs).find? (fun c => c.confidence == "high")).getD x)
    ∧ best_item ([] : List ClassifiedItem) = none := by
  constructor
  · show some (pyMaxAux _ x xs) = _
    cases hk : (x.confidence == "high") with
    | true =>
      rw [pyMaxAux_key_true _ x hk xs]
      simp [List.find?, hk]
    | false =>
      rw [pyMaxAux_key_false _ xs x hk]
      simp [List.find?, hk]
  · rfl

/-- Claim C10 (confirmed): every public notification method of the two
notifier classes is a total boolean function; a failure while building
the message (the empty details list in the discovery notification, the
missing details list in a found-state periodic report) is caught and
yields false, and in every other case the result is exactly the boolean
returned by the webhook submission. -/
theorem notifier_methods_no_raise (env : Nat → WebhookResponse) :
    send_cbp501_found_notification env [] = false
    ∧ (∀ details, send_cbp501_found_notification env details
        = if details.isEmpty then false else (send_webhook env 3).1)
    ∧ (∀ found details count, send_status_report env found details count
        = if found && details.isNone then false else (send_webhook env 3).1)
    ∧ (∀ nf count, send_cbp501_status_change env nf count = (send_webhook env 3).1)
    ∧ (∀ msg, send_error_notification env msg = (send_webhook env 3).1)
    ∧ test_connection env = (send_webhook env 3).1
    ∧ (∀ item, send_approval_notification env item = (send_webhook env 3).1) := by
  refine ⟨rfl, ?_, ?_, fun _ _ => rfl, fun _ => rfl, rfl, fun _ => rfl⟩
  · intro details
    cases details <;> rfl
  · intro found details count
    cases found <;> cases details <;> rfl

/-- Claim C6 (corrected), counterexample: a status file holding a
corrupted token is not degraded to the default: the token is returned
verbatim and no warning is recorded. -/
theorem load_status_corrupted_counterexample :
    load_last_found_status (FileState.readable "corrupt") = ("corrupt", false)
    ∧ ("corrupt" : String) ≠ "未発見" ∧ ("corrupt" : String) ≠ "発見" := by
  decide

/-- Claim C6 (amended): saving the status and loading it returns the
same value for whitespace-trimmed tokens; a missing file yields the
documented default silently; a non-integer counter string and an
unreadable file yield the default plus a warning and never raise; a
merely corrupted status token, however, is returned verbatim with no
warning and no default. -/
theorem state_persistence_policy :
    (∀ s : String, pyStrip s = s →
        load_last_found_status (save_cbp501_status s) = (s, false))
    ∧ load_last_found_status FileState.missing = ("未発見", false)
    ∧ load_execution_counter FileState.missing = (0, false)
    ∧ (∀ c : String, parseIntStr (pyStrip c) = none →
        load_execution_counter (FileState.readable c) = (0, true))
    ∧ (∀ c : String, load_last_found_status (FileState.readable c) = (pyStrip c, false))
    ∧ load_last_found_status FileState.unreadable = ("未発見", true)
    ∧ load_execution_counter FileState.unreadable = (0, true) := by
  refine ⟨?_, rfl, rfl, ?_, fun _ => rfl, rfl, rfl⟩
  · intro s hs
    simp [save_cbp501_status, load_last_found_status, hs]
  · intro c hc
    simp [load_execution_counter, hc]

/-- Claim C6 witness: the round trip on the found token and the
degradation of a non-numeric counter file. -/
theorem state_persistence_policy_witness :
    load_last_found_status (save_cbp501_status "発見") = ("発見", false)
    ∧ load_execution_counter (FileState.readable "abc") = (0, true) :=
  ⟨state_persistence_policy.1 "発見" (by decide),
   state_persistence_policy.2.2.2.1 "abc" (by decide)⟩

/-- Claim C7 (confirmed): every invocation persists exactly the loaded
counter plus one, on the success path and on the error path alike, so
the persisted value strictly exceeds the loaded one; consequently a run
whose counter file reads back as n persists n + 1. -/
theorem execution_counter_increment :
    (∀ (cf sf : FileState) (iv : Int) (scrape : ScrapeOutcome),
        (runMain cf sf iv scrape).savedCounter = (load_execution_counter cf).1 + 1)
    ∧ (∀ (cf sf : FileState) (iv : Int) (scrape : ScrapeOutcome),
        (load_execution_counter cf).1 < (runMain cf sf iv scrape).savedCounter)
    ∧ (∀ (s : String) (n : Int) (sf : FileState) (iv : Int) (scrape : ScrapeOutcome),
        parseIntStr (pyStrip s) = some n →
        (runMain (FileState.readable s) sf iv scrape).savedCounter = n + 1) := by
  have base : ∀ (cf sf : FileState) (iv : Int) (scrape : ScrapeOutcome),
      (runMain cf sf iv scrape).savedCounter = (load_execution_counter cf).1 + 1 := by
    intro cf sf iv scrape
    cases scrape <;> rfl
  refine ⟨base, ?_, ?_⟩
  · intro cf sf iv scrape
    rw [base]
    omega
  · intro s n sf iv scrape h
    rw [base]
    simp [load_execution_counter, h]

/-- Claim C7 witness: a counter file reading 7 is persisted as 8 even
when the scraper raises. -/
theorem execution_counter_increment_witness :
    (runMain (FileState.readable "7") FileState.missing 4
      ScrapeOutcome.raised).savedCounter = 7 + 1 :=
  execution_counter_increment.2.2 "7" 7 FileState.missing 4
    ScrapeOutcome.raised (by decide)

/-- Claim C4 (corrected), counterexample: when all three attempts fail
with network errors the sender sleeps 1 unit and then 2 units only; no
4-unit backoff wait ever occurs, because the third failed attempt
returns false without sleeping. -/
theorem send_webhook_backoff_counterexample :
    send_webhook envErr 3
      = (false, [SendEvent.attempt, SendEvent.wait 1, SendEvent.attempt,
          SendEvent.wait 2, SendEvent.attempt])
    ∧ SendEvent.wait 4 ∉ (send_webhook envErr 3).2 := by decide

/-- Claim C4 (amended): the webhook sender returns true immediately on
HTTP 204; on HTTP 429 it waits a fixed 5 units and retries, so the
response sequence 429, 429, 204 yields true after exactly 3 attempts
with one 5-unit wait per 429; any other non-204 status returns false
immediately without retry; network-level errors are retried with
exponential backoff waits of 1 then 2 units up to 3 total attempts,
after which false is returned with no further wait. -/
theorem send_webhook_retry_policy (env : Nat → WebhookResponse) :
    (env 0 = WebhookResponse.status 204 →
      send_webhook env 3 = (true, [SendEvent.attempt]))
    ∧ (env 0 = WebhookResponse.status 429 → env 1 = WebhookResponse.status 429 →
       env 2 = WebhookResponse.status 204 →
       send_webhook env 3 = (true, [SendEvent.attempt, SendEvent.wait 5,
         SendEvent.attempt, SendEvent.wait 5, SendEvent.attempt]))
    ∧ (∀ code, code ≠ 204 → code ≠ 429 → env 0 = WebhookResponse.status code →
       send_webhook env 3 = (false, [SendEvent.attempt]))
    ∧ ((∀ i, i < 3 → env i = WebhookResponse.netError) →
       send_webhook env 3 = (false, [SendEvent.attempt, SendEvent.wait 1,
         SendEvent.attempt, SendEvent.wait 2, SendEvent.attempt])) := by
  have e0 : send_webhook env 3 = send_webhook_aux env 3 (2 + 1) 0 := rfl
  refine ⟨?_, ?_, ?_, ?_⟩
  · intro h0
    rw [e0, send_webhook_aux_succ, h0]
    simp
  · intro h0 h1 h2
    have s2 : send_webhook_aux env 3 (0 + 1) 2 = (true, [SendEvent.attempt]) := by
      rw [send_webhook_aux_succ, h2]
      simp
    have s1 : send_webhook_aux env 3 (1 + 1) 1
        = (true, [SendEvent.attempt, SendEvent.wait 5, SendEvent.attempt]) := by
      rw [send_webhook_aux_succ, h1]
      simp [s2]
    have s0 : send_webhook_aux env 3 (2 + 1) 0
        = (true, [SendEvent.attempt, SendEvent.wait 5, SendEvent.attempt,
            SendEvent.wait 5, SendEvent.attempt]) := by
      rw [send_webhook_aux_succ, h0]
      simp [s1]
    rw [e0, s0]
  · intro code hc1 hc2 h0
    rw [e0, send_webhook_aux_succ, h0]
    simp [hc1, hc2]
  · intro h
    have s2 : send_webhook_aux env 3 (0 + 1) 2 = (false, [SendEvent.attempt]) := by
      rw [send_webhook_aux_succ, h 2 (by decide)]
      simp
    have s1 : send_webhook_aux env 3 (1 + 1) 1
        = (false, [SendEvent.attempt, SendEvent.wait 2, SendEvent.attempt]) := by
      rw [send_webhook_aux_succ, h 1 (by decide)]
      simp [s2]
    have s0 : send_webhook_aux env 3 (2 + 1) 0
        = (false, [SendEvent.attempt, SendEvent.wait 1, SendEvent.attempt,
            SendEvent.wait 2, SendEvent.attempt]) := by
      rw [send_webhook_aux_succ, h 0 (by decide)]
      simp [s1]
    rw [e0, s0]

/-- Claim C4 witness: the four retry scenarios evaluated on concrete
response environments. -/
theorem send_webhook_retry_policy_witness :
    send_webhook env204 3 = (true, [SendEvent.attempt])
    ∧ send_webhook env429twice 3 = (true, [SendEvent.attempt, SendEvent.wait 5,
        SendEvent.attempt, SendEvent.wait 5, SendEvent.attempt])
    ∧ send_webhook env500 3 = (false, [SendEvent.attempt]) :=
  ⟨(send_webhook_retry_policy env204).1 rfl,
   (send_webhook_retry_policy env429twice).2.1 rfl rfl rfl,
   (send_webhook_retry_policy env500).2.2.1 500 (by decide) (by decide) rfl⟩

/-- An item produced by `parse_link_item` links to the joined href of
its anchor. -/
theorem parse_link_item_link (join : String → String) (hashFn : String → Int)
    (dateFind : String → String) (a : Anchor) (idx : Nat) (item : NewsItem)
    (h : parse_link_item join hashFn dateFind a idx = some item) :
    item.link = join a.href := by
  simp only [parse_link_item] at h
  by_cases hc : a.text = "" ∨ a.text.length < 10
  · rw [if_pos hc] at h
    exact Option.noConfusion h
  · rw [if_neg hc] at h
    injection h with h
    rw [← h]

/-- Invariant of approach 1 of the news extractor: with an injective
URL join, the emitted links are pairwise distinct and none of them
joins an href already recorded as processed. -/
theorem extract_approach1_nodup_aux (join : String → String)
    (hashFn : String → Int) (dateFind : String → String)
    (hinj : Function.Injective join) :
    ∀ (anchors : List Anchor) (idx : Nat) (processed : List String),
      (((extract_approach1 join hashFn dateFind anchors idx processed).map
          NewsItem.link).Nodup)
      ∧ (∀ l ∈ (extract_approach1 join hashFn dateFind anchors idx processed).map
            NewsItem.link, ∀ h ∈ processed, l ≠ join h) := by
  intro anchors
  induction anchors with
  | nil =>
    intro idx processed
    simp [extract_approach1]
  | cons a rest ih =>
    intro idx processed
    simp only [extract_approach1]
    split
    · exact ih (idx + 1) processed
    · split
      · cases hp : parse_link_item join hashFn dateFind a idx with
        | some item =>
          obtain ⟨ihn, ihp⟩ := ih (idx + 1) (a.href :: processed)
          have hlink : item.link = join a.href :=
            parse_link_item_link join hashFn dateFind a idx item hp
          have hnotp : a.href ∉ processed := by
            rename_i hskip _
            intro hmem
            exact hskip (Or.inr hmem)
          constructor
          · simp only [List.map_cons, List.nodup_cons]
            refine ⟨?_, ihn⟩
            intro hmem
            exact ihp item.link hmem a.href (List.mem_cons_self _ _) hlink
          · intro l hl h hh
            rw [List.map_cons] at hl
            rcases List.mem_cons.mp hl with hl1 | hl2
            · intro heq
              rw [hl1, hlink] at heq
              exact hnotp (hinj heq ▸ hh)
            · exact ihp l hl2 h (List.mem_cons_of_mem _ hh)
        | none =>
          obtain ⟨ihn, ihp⟩ := ih (idx + 1) (a.href :: processed)
          exact ⟨ihn, fun l hl h hh => ihp l hl h (List.mem_cons_of_mem _ hh)⟩
      · exact ih (idx + 1) processed

/-- Claim C5 (corrected), counterexample: the CBP501 content finder run
on a page with two anchors sharing one target URL emits two content
items with that same URL, so a duplicated anchor URL does not yield
exactly one item. -/
theorem find_cbp501_content_duplicate_url :
    ((find_cbp501_content (fun h => "https://www.ema.europa.eu" ++ h)
        "https://www.ema.europa.eu/en/news" docDup).map ContentItem.url)
      = ["https://www.ema.europa.eu/en/news/cbp501",
         "https://www.ema.europa.eu/en/news/cbp501"] := by decide

/-- Claim C5 (amended): URL deduplication holds within the
scoped-container strategy of the news extractor, whose processed-href
set guarantees pairwise distinct emitted URLs for an injective join;
the CBP501 content finder performs no URL deduplication, so a document
with two anchors with identical target URLs yields two content items
for that URL there. -/
theorem extractor_dedup (join : String → String) (hashFn : String → Int)
    (dateFind : String → String) (hinj : Function.Injective join) :
    (∀ (anchors : List Anchor) (idx : Nat),
        ((extract_approach1 join hashFn dateFind anchors idx []).map
          NewsItem.link).Nodup)
    ∧ ((find_cbp501_content (fun h => "https://www.ema.europa.eu" ++ h)
          "https://www.ema.europa.eu/en/news" docDup).countP
          (fun i => i.url == "https://www.ema.europa.eu/en/news/cbp501") = 2) := by
  constructor
  · intro anchors idx
    exact (extract_approach1_nodup_aux join hashFn dateFind hinj anchors idx []).1
  · decide

/-- Claim C5 witness: the deduplicating strategy run on three concrete
anchors, two of which share an href, emits two items with distinct
URLs. -/
theorem extractor_dedup_witness :
    ((extract_approach1 id hash0 date0 demoAnchors 0 []).map NewsItem.link).Nodup :=
  (extractor_dedup id hash0 date0 (fun _ _ h => h)).1 demoAnchors 0

end EmaMonitor
